import Mathlib

/-!
Shallow embedding of the stock-alerts repository (src/intraday_backtest.py and
src/ml_trading_bot.py) and proofs about its indicator pipeline and trade loop.

Prices and indicator values are modelled as rationals (ℚ). Pandas NaN cells,
which arise only from insufficient rolling-window history or 0/0 divisions,
are modelled as `Option ℚ` with `none` for NaN; rows the source keeps after
`dropna()` carry plain rationals.
-/

namespace StockAlerts

/-- Strategy parameters from the configuration block of intraday_backtest.py. -/
def RSI_OVERBOUGHT : ℚ := 70

/-- RSI oversold threshold. -/
def RSI_OVERSOLD : ℚ := 30

/-- Per-trade budget (POSITION_SIZE = 200). -/
def POSITION_SIZE : ℚ := 200

/-- One row of the indicator DataFrame after `dropna()`: the bar fields and the
indicator columns used by `generate_signal` and the backtest loop. All values
are defined (non-NaN) because `dropna()` removed incomplete rows. -/
structure Row where
  open_ : ℚ
  high : ℚ
  low : ℚ
  close : ℚ
  volume : ℚ
  ma20 : ℚ
  ma50 : ℚ
  rsi : ℚ
  macd : ℚ
  macdSignal : ℚ
  upperBand : ℚ
  middleBand : ℚ
  lowerBand : ℚ
  atr : ℚ
deriving DecidableEq, Repr

/-- The classifier decision. The source returns the strings "BUY"/"SELL" or
Python `None`; we model the result as `Option Signal`. -/
inductive Signal where
  | BUY
  | SELL
deriving DecidableEq, Repr

/-- Buy-vote count of `generate_signal` (intraday_backtest.py lines 99-126):
each of the four indicator components adds one buy vote under its `if` branch.
The `elif` structure of each component is mirrored exactly. -/
def buy_signals (row : Row) : ℕ :=
  (if row.close > row.ma20 ∧ row.ma20 > row.ma50 then 1 else 0) +
  (if row.rsi < RSI_OVERSOLD then 1 else 0) +
  (if row.macd > row.macdSignal then 1 else 0) +
  (if row.close < row.lowerBand then 1 else 0)

/-- Sell-vote count of `generate_signal`: each component adds one sell vote
under its `elif` branch, i.e. only when its buy condition failed. -/
def sell_signals (row : Row) : ℕ :=
  (if ¬(row.close > row.ma20 ∧ row.ma20 > row.ma50) ∧
      (row.close < row.ma20 ∧ row.ma20 < row.ma50) then 1 else 0) +
  (if ¬(row.rsi < RSI_OVERSOLD) ∧ row.rsi > RSI_OVERBOUGHT then 1 else 0) +
  (if ¬(row.macd > row.macdSignal) ∧ row.macd < row.macdSignal then 1 else 0) +
  (if ¬(row.close < row.lowerBand) ∧ row.close > row.upperBand then 1 else 0)

/-- Embedding of `generate_signal(row, position)` from intraday_backtest.py:
BUY when at least three buy votes and no position is open, else SELL when at
least three sell votes and a position is open, else `None` (hold). -/
def generate_signal (row : Row) (position : Bool) : Option Signal :=
  if buy_signals row ≥ 3 ∧ position = false then some Signal.BUY
  else if sell_signals row ≥ 3 ∧ position = true then some Signal.SELL
  else none

/-- The open position record of the backtest loop (the `position` dict built at
intraday_backtest.py lines 177-182). The source holds either Python `None` or a
single such dict, so the simulator state carries an `Option Position`: at most
one position can be open by construction. -/
structure Position where
  buy_price : ℚ
  qty : ℤ
  stop_loss : ℚ
  take_profit : ℚ
deriving DecidableEq, Repr

/-- Which branch of the loop produced a trade-log entry. The source logs the
string "SELL" for all three exit branches but sends distinct notifications
(STOP LOSS / TAKE PROFIT / SELL); the kind records the branch taken. -/
inductive EventKind where
  | BUY
  | STOP_LOSS
  | TAKE_PROFIT
  | SELL_SIGNAL
deriving DecidableEq, Repr

/-- One `trade_log` entry. The source stores the bar's timestamp
(`current.name`); we record the bar's index `idx` in the indicator series,
which identifies the same bar. `profit` is present only on exit entries,
mirroring the 4-tuples (BUY) versus 5-tuples (exits) of the source. -/
structure TradeEvent where
  kind : EventKind
  idx : ℕ
  price : ℚ
  qty : ℤ
  profit : Option ℚ
deriving DecidableEq, Repr

/-- The mutable state threaded through the backtest loop: `position`,
`total_profit` and `trade_log` (intraday_backtest.py lines 162-165). -/
structure SimState where
  position : Option Position
  total_profit : ℚ
  trade_log : List TradeEvent
deriving DecidableEq, Repr

/-- Initial loop state: no position, zero profit, empty log. -/
def initState : SimState := ⟨none, 0, []⟩

/-- One iteration of the backtest loop body (intraday_backtest.py lines
168-235) on the bar at index `i`. `int(POSITION_SIZE // close)` is floor
division, modelled as `⌊POSITION_SIZE / close⌋` (the source's floats carry
positive prices, where the two divisions agree). -/
def step (i : ℕ) (current : Row) (s : SimState) : SimState :=
  if generate_signal current s.position.isSome = some Signal.BUY ∧ s.position.isNone then
    if Rat.floor (POSITION_SIZE / current.close) > 0 then
      { position := some ⟨current.close, Rat.floor (POSITION_SIZE / current.close),
                          current.close - 2 * current.atr,
                          current.close + 3 * current.atr⟩,
        total_profit := s.total_profit,
        trade_log := s.trade_log ++
          [⟨EventKind.BUY, i, current.close, Rat.floor (POSITION_SIZE / current.close), none⟩] }
    else s
  else
    match s.position with
    | none => s
    | some p =>
      if current.low ≤ p.stop_loss then
        { position := none,
          total_profit := s.total_profit + (p.stop_loss - p.buy_price) * (p.qty : ℚ),
          trade_log := s.trade_log ++
            [⟨EventKind.STOP_LOSS, i, p.stop_loss, p.qty,
              some ((p.stop_loss - p.buy_price) * (p.qty : ℚ))⟩] }
      else if current.high ≥ p.take_profit then
        { position := none,
          total_profit := s.total_profit + (p.take_profit - p.buy_price) * (p.qty : ℚ),
          trade_log := s.trade_log ++
            [⟨EventKind.TAKE_PROFIT, i, p.take_profit, p.qty,
              some ((p.take_profit - p.buy_price) * (p.qty : ℚ))⟩] }
      else if generate_signal current s.position.isSome = some Signal.SELL then
        { position := none,
          total_profit := s.total_profit + (current.close - p.buy_price) * (p.qty : ℚ),
          trade_log := s.trade_log ++
            [⟨EventKind.SELL_SIGNAL, i, current.close, p.qty,
              some ((current.close - p.buy_price) * (p.qty : ℚ))⟩] }
      else s

/-- Runs the loop body over the remaining rows, `i` being the index of the
first row of `rows` in the full series. -/
def runFrom (i : ℕ) (rows : List Row) (s : SimState) : SimState :=
  match rows with
  | [] => s
  | r :: rest => runFrom (i + 1) rest (step i r s)

/-- The whole backtest of one indicator series: `for i in range(1, len(data))`
starts at the second row, so the first row is never evaluated. -/
def backtest (rows : List Row) : SimState :=
  runFrom 1 (rows.drop 1) initState

/-- Sum of the realized profits recorded in a trade log (exit entries only;
BUY entries carry no profit field). -/
def sumProfits (log : List TradeEvent) : ℚ :=
  (log.filterMap TradeEvent.profit).sum

/-- The floor used in `int(POSITION_SIZE // close)` is the mathematical floor. -/
theorem rat_floor_eq_floor (q : ℚ) : Rat.floor q = ⌊q⌋ := by
  rw [Rat.floor_def', Rat.floor_def]

/-- C1: the simulator state holds at most one open position (`position :
Option Position`, mirroring the single `position` dict-or-None of the source);
each bar appends at most one trade-log entry; a BUY entry is appended only
when the pre-state is Flat, and every exit entry (stop-loss, take-profit or
signal sell) only when the pre-state is Long, after which the state is Flat. -/
theorem step_buy_from_flat_exit_from_long (i : ℕ) (r : Row) (s : SimState) :
    ((step i r s).trade_log = s.trade_log ∨
      ∃ e, (step i r s).trade_log = s.trade_log ++ [e]) ∧
    (∀ e, (step i r s).trade_log = s.trade_log ++ [e] →
      (e.kind = EventKind.BUY → s.position = none) ∧
      (e.kind ≠ EventKind.BUY → s.position ≠ none ∧ (step i r s).position = none)) := by
  cases hp : s.position with
  | none =>
    simp only [step, hp, Option.isSome_none, Option.isNone_none]
    split_ifs <;> simp_all
  | some p =>
    simp only [step, hp, Option.isSome_some, Option.isNone_some]
    split_ifs <;> simp_all

/-- C3: with a position open, exit rules are tried in the fixed order
stop-loss, take-profit, classifier SELL, each only if no earlier rule fired,
so at most one exit entry is appended per bar; a bar breaching both the
stop-loss (low) and the take-profit (high) exits at the stop-loss. -/
theorem step_exit_priority (i : ℕ) (r : Row) (s : SimState) (p : Position)
    (hp : s.position = some p) :
    ((step i r s).trade_log = s.trade_log ∨
      ∃ e, (step i r s).trade_log = s.trade_log ++ [e]) ∧
    (r.low ≤ p.stop_loss →
      (step i r s).trade_log = s.trade_log ++
        [⟨EventKind.STOP_LOSS, i, p.stop_loss, p.qty,
          some ((p.stop_loss - p.buy_price) * (p.qty : ℚ))⟩]) ∧
    (¬ r.low ≤ p.stop_loss → r.high ≥ p.take_profit →
      (step i r s).trade_log = s.trade_log ++
        [⟨EventKind.TAKE_PROFIT, i, p.take_profit, p.qty,
          some ((p.take_profit - p.buy_price) * (p.qty : ℚ))⟩]) ∧
    (¬ r.low ≤ p.stop_loss → ¬ r.high ≥ p.take_profit →
      generate_signal r true = some Signal.SELL →
      (step i r s).trade_log = s.trade_log ++
        [⟨EventKind.SELL_SIGNAL, i, r.close, p.qty,
          some ((r.close - p.buy_price) * (p.qty : ℚ))⟩]) ∧
    (¬ r.low ≤ p.stop_loss → ¬ r.high ≥ p.take_profit →
      ¬ generate_signal r true = some Signal.SELL → step i r s = s) ∧
    (r.low ≤ p.stop_loss ∧ r.high ≥ p.take_profit →
      (step i r s).trade_log = s.trade_log ++
        [⟨EventKind.STOP_LOSS, i, p.stop_loss, p.qty,
          some ((p.stop_loss - p.buy_price) * (p.qty : ℚ))⟩]) := by
  simp only [step, hp, Option.isSome_some, Option.isNone_some]
  split_ifs <;> simp_all

/-- C4: from Flat with a BUY decision, the loop computes
`qty = ⌊POSITION_SIZE / close⌋`; if `qty ≥ 1` it opens a position at the
bar's close with stop-loss `close − 2·ATR` and take-profit `close + 3·ATR`
and logs a BUY entry; if `qty < 1` nothing changes. The positivity of the
close matches the source, whose prices are positive floats. -/
theorem step_buy_entry (i : ℕ) (r : Row) (s : SimState)
    (hflat : s.position = none) (_hpos : 0 < r.close)
    (hbuy : generate_signal r false = some Signal.BUY) :
    Rat.floor (POSITION_SIZE / r.close) = ⌊POSITION_SIZE / r.close⌋ ∧
    (1 ≤ ⌊POSITION_SIZE / r.close⌋ →
      (step i r s).position = some ⟨r.close, ⌊POSITION_SIZE / r.close⌋,
        r.close - 2 * r.atr, r.close + 3 * r.atr⟩ ∧
      (step i r s).trade_log = s.trade_log ++
        [⟨EventKind.BUY, i, r.close, ⌊POSITION_SIZE / r.close⌋, none⟩] ∧
      (step i r s).total_profit = s.total_profit) ∧
    (⌊POSITION_SIZE / r.close⌋ < 1 → step i r s = s) := by
  refine ⟨rat_floor_eq_floor _, ?_, ?_⟩ <;>
    simp only [step, hflat, Option.isSome_none, Option.isNone_none,
      rat_floor_eq_floor] <;>
    intro h <;> split_ifs <;> simp_all <;> omega

/-- Appending one log entry adds its recorded profit (if any) to the total. -/
theorem sumProfits_append (l : List TradeEvent) (e : TradeEvent) :
    sumProfits (l ++ [e]) = sumProfits l + e.profit.getD 0 := by
  cases h : e.profit <;> simp [sumProfits, List.filterMap_append, h]

/-- One loop iteration preserves `total_profit = sum of logged profits`. -/
theorem step_profit_inv (i : ℕ) (r : Row) (s : SimState)
    (h : s.total_profit = sumProfits s.trade_log) :
    (step i r s).total_profit = sumProfits (step i r s).trade_log := by
  cases hp : s.position <;>
    simp only [step, hp, Option.isSome_none, Option.isNone_none,
      Option.isSome_some, Option.isNone_some] <;>
    split_ifs <;> simp_all [sumProfits_append]

/-- The invariant carries through the whole loop. -/
theorem runFrom_profit_inv (rows : List Row) : ∀ (i : ℕ) (s : SimState),
    s.total_profit = sumProfits s.trade_log →
    (runFrom i rows s).total_profit = sumProfits (runFrom i rows s).trade_log := by
  induction rows with
  | nil => intro i s h; simpa [runFrom] using h
  | cons r rest ih =>
    intro i s h
    simp only [runFrom]
    exact ih _ _ (step_profit_inv i r s h)

/-- C2: every exit entry records profit `(exit_price − entry_price) × qty`,
with the exit price being the stop-loss price, the take-profit price, or the
bar's close according to the exit kind; and after a whole backtest the running
`total_profit` equals the sum of the recorded exit profits. -/
theorem exit_profit_accounting :
    (∀ (i : ℕ) (r : Row) (s : SimState) (p : Position) (e : TradeEvent),
      s.position = some p → (step i r s).trade_log = s.trade_log ++ [e] →
      e.kind ≠ EventKind.BUY ∧
      e.qty = p.qty ∧
      e.profit = some ((e.price - p.buy_price) * (p.qty : ℚ)) ∧
      (e.kind = EventKind.STOP_LOSS → e.price = p.stop_loss) ∧
      (e.kind = EventKind.TAKE_PROFIT → e.price = p.take_profit) ∧
      (e.kind = EventKind.SELL_SIGNAL → e.price = r.close) ∧
      (step i r s).total_profit = s.total_profit + (e.price - p.buy_price) * (p.qty : ℚ)) ∧
    (∀ rows : List Row,
      (backtest rows).total_profit = sumProfits (backtest rows).trade_log) := by
  constructor
  · intro i r s p e hp hlog
    simp only [step, hp, Option.isSome_some, Option.isNone_some] at hlog ⊢
    split_ifs at hlog ⊢ <;>
      first
      | (exfalso; simp_all; done)
      | (simp at hlog; subst hlog; simp)
  · intro rows
    exact runFrom_profit_inv _ 1 initState (by simp [initState, sumProfits])

/-- A loop iteration only appends entries carrying the current bar index. -/
theorem step_log_mem (i : ℕ) (r : Row) (s : SimState) (e : TradeEvent)
    (he : e ∈ (step i r s).trade_log) : e ∈ s.trade_log ∨ e.idx = i := by
  cases hp : s.position <;>
    simp only [step, hp, Option.isSome_none, Option.isNone_none,
      Option.isSome_some, Option.isNone_some] at he <;>
    split_ifs at he <;> simp_all <;>
    rcases he with he | he <;> simp_all

/-- Entries produced from bar `i` onward carry an index of at least `i`. -/
theorem runFrom_idx_ge (rows : List Row) : ∀ (i : ℕ) (s : SimState) (e : TradeEvent),
    e ∈ (runFrom i rows s).trade_log → e ∈ s.trade_log ∨ i ≤ e.idx := by
  induction rows with
  | nil => intro i s e he; exact Or.inl (by simpa [runFrom] using he)
  | cons r rest ih =>
    intro i s e he
    simp only [runFrom] at he
    rcases ih (i + 1) (step i r s) e he with h | h
    · rcases step_log_mem i r s e h with h2 | h2
      · exact Or.inl h2
      · exact Or.inr (by omega)
    · exact Or.inr (by omega)

/-- C10: the loop `for i in range(1, len(data))` starts at the second row,
so the backtest result never depends on the first indicator row (in
particular a BUY decision there opens nothing), and every logged event
belongs to a bar of index at least 1. -/
theorem backtest_skips_first_row :
    (∀ (r r2 : Row) (rest : List Row), backtest (r :: rest) = backtest (r2 :: rest)) ∧
    (∀ (rows : List Row) (e : TradeEvent), e ∈ (backtest rows).trade_log → 1 ≤ e.idx) := by
  constructor
  · intro r r2 rest; rfl
  · intro rows e he
    rcases runFrom_idx_ge (rows.drop 1) 1 initState e he with h | h
    · simp [initState] at h
    · exact h

/-- Demo indicator row triggering a BUY from flat: three buy votes (trend,
RSI, MACD); close 10, ATR 1, so quantity 20, stop-loss 8, take-profit 13. -/
def rowBuy : Row := ⟨10, 10, 10, 10, 100, 5, 1, 10, 1, 0, 100, 50, 0, 1⟩

/-- The position `rowBuy` opens: 20 shares at 10, stop-loss 8, take-profit 13. -/
def posDemo : Position := ⟨10, 20, 8, 13⟩

/-- Simulator state holding `posDemo` with an empty log. -/
def stateLong : SimState := ⟨some posDemo, 0, []⟩

/-- Bar whose low 7 breaches the stop-loss 8 while its high 14 also breaches
the take-profit 13. -/
def rowStop : Row := ⟨9, 14, 7, 9, 100, 10, 11, 50, 0, 0, 100, 50, -10, 1⟩

/-- Witness for C1: the concrete BUY step from `initState` (which is Flat). -/
theorem step_buy_from_flat_exit_from_long_witness :
    (step 1 rowBuy initState).trade_log = initState.trade_log ++
      [⟨EventKind.BUY, 1, 10, 20, none⟩] ∧ initState.position = none := by
  have h : (step 1 rowBuy initState).trade_log = initState.trade_log ++
      [⟨EventKind.BUY, 1, 10, 20, none⟩] := by
    norm_num [step, initState, rowBuy, generate_signal, buy_signals, sell_signals,
      RSI_OVERSOLD, RSI_OVERBOUGHT, POSITION_SIZE, rat_floor_eq_floor]
  exact ⟨h, ((step_buy_from_flat_exit_from_long 1 rowBuy initState).2 _ h).1 rfl⟩

/-- Witness for C2: the concrete stop-loss exit records profit
`(8 − 10) × 20 = −40`. -/
theorem exit_profit_accounting_witness :
    (step 2 rowStop stateLong).trade_log = stateLong.trade_log ++
      [⟨EventKind.STOP_LOSS, 2, 8, 20, some (-40)⟩] ∧
    (some (-40) : Option ℚ) =
      some (((8 : ℚ) - posDemo.buy_price) * (posDemo.qty : ℚ)) := by
  have hlog : (step 2 rowStop stateLong).trade_log = stateLong.trade_log ++
      [⟨EventKind.STOP_LOSS, 2, 8, 20, some (-40)⟩] := by
    norm_num [step, stateLong, posDemo, rowStop, generate_signal, buy_signals,
      sell_signals, RSI_OVERSOLD, RSI_OVERBOUGHT]
  have h := (exit_profit_accounting.1 2 rowStop stateLong posDemo _ rfl hlog).2.2.1
  exact ⟨hlog, by simpa [posDemo] using h⟩

/-- Witness for C3: on a bar breaching both the stop-loss and the
take-profit, the concrete step exits at the stop-loss. -/
theorem step_exit_priority_witness :
    rowStop.low ≤ posDemo.stop_loss ∧ rowStop.high ≥ posDemo.take_profit ∧
    (step 2 rowStop stateLong).trade_log = stateLong.trade_log ++
      [⟨EventKind.STOP_LOSS, 2, posDemo.stop_loss, posDemo.qty,
        some ((posDemo.stop_loss - posDemo.buy_price) * (posDemo.qty : ℚ))⟩] := by
  refine ⟨by norm_num [rowStop, posDemo], by norm_num [rowStop, posDemo], ?_⟩
  exact (step_exit_priority 2 rowStop stateLong posDemo rfl).2.2.2.2.2
    ⟨by norm_num [rowStop, posDemo], by norm_num [rowStop, posDemo]⟩

/-- Witness for C4: the concrete BUY entry opens 20 shares at 10 with
stop-loss 8 and take-profit 13. -/
theorem step_buy_entry_witness :
    (0 : ℚ) < rowBuy.close ∧ generate_signal rowBuy false = some Signal.BUY ∧
    (step 1 rowBuy initState).position =
      some ⟨rowBuy.close, ⌊POSITION_SIZE / rowBuy.close⌋,
            rowBuy.close - 2 * rowBuy.atr, rowBuy.close + 3 * rowBuy.atr⟩ := by
  have hbuy : generate_signal rowBuy false = some Signal.BUY := by
    norm_num [generate_signal, buy_signals, sell_signals, rowBuy,
      RSI_OVERSOLD, RSI_OVERBOUGHT]
  refine ⟨by norm_num [rowBuy], hbuy, ?_⟩
  exact ((step_buy_entry 1 rowBuy initState rfl (by norm_num [rowBuy]) hbuy).2.1
    (by norm_num [rowBuy, POSITION_SIZE])).1

/-- Witness for C10: the event logged by a concrete two-row backtest sits at
bar index 1, never 0. -/
theorem backtest_skips_first_row_witness :
    (⟨EventKind.BUY, 1, 10, 20, none⟩ : TradeEvent) ∈
      (backtest [rowBuy, rowBuy]).trade_log ∧
    1 ≤ (⟨EventKind.BUY, 1, 10, 20, none⟩ : TradeEvent).idx := by
  have hm : (⟨EventKind.BUY, 1, 10, 20, none⟩ : TradeEvent) ∈
      (backtest [rowBuy, rowBuy]).trade_log := by
    norm_num [backtest, runFrom, step, initState, rowBuy, generate_signal,
      buy_signals, sell_signals, RSI_OVERSOLD, RSI_OVERBOUGHT, POSITION_SIZE,
      rat_floor_eq_floor]
  exact ⟨hm, backtest_skips_first_row.2 [rowBuy, rowBuy] _ hm⟩

/-- A single indicator component's vote. -/
inductive Vote where
  | buy
  | sell
  | hold
deriving DecidableEq, Repr

/-- Trend component: close above MA20 above MA50 votes buy; close below MA20
below MA50 votes sell; otherwise no vote. -/
def trendVote (row : Row) : Vote :=
  if row.close > row.ma20 ∧ row.ma20 > row.ma50 then Vote.buy
  else if row.close < row.ma20 ∧ row.ma20 < row.ma50 then Vote.sell
  else Vote.hold

/-- RSI component: below the oversold threshold votes buy; above the
overbought threshold votes sell; otherwise no vote. -/
def rsiVote (row : Row) : Vote :=
  if row.rsi < RSI_OVERSOLD then Vote.buy
  else if row.rsi > RSI_OVERBOUGHT then Vote.sell
  else Vote.hold

/-- MACD component as the code implements it: MACD strictly above the signal
line votes buy, strictly below votes sell, equality votes neither. -/
def macdVote (row : Row) : Vote :=
  if row.macd > row.macdSignal then Vote.buy
  else if row.macd < row.macdSignal then Vote.sell
  else Vote.hold

/-- Bollinger component: close below the lower band votes buy, above the
upper band votes sell, otherwise no vote. -/
def bollingerVote (row : Row) : Vote :=
  if row.close < row.lowerBand then Vote.buy
  else if row.close > row.upperBand then Vote.sell
  else Vote.hold

/-- Buy votes among the four components. -/
def amendedBuyCount (row : Row) : ℕ :=
  (if trendVote row = Vote.buy then 1 else 0) +
  (if rsiVote row = Vote.buy then 1 else 0) +
  (if macdVote row = Vote.buy then 1 else 0) +
  (if bollingerVote row = Vote.buy then 1 else 0)

/-- Sell votes among the four components. -/
def amendedSellCount (row : Row) : ℕ :=
  (if trendVote row = Vote.sell then 1 else 0) +
  (if rsiVote row = Vote.sell then 1 else 0) +
  (if macdVote row = Vote.sell then 1 else 0) +
  (if bollingerVote row = Vote.sell then 1 else 0)

/-- The trend vote is buy exactly under the code's first `if` condition. -/
theorem trendVote_buy (row : Row) :
    trendVote row = Vote.buy ↔ row.close > row.ma20 ∧ row.ma20 > row.ma50 := by
  unfold trendVote; split_ifs <;> simp_all

/-- The trend vote is sell exactly under the code's `elif` condition. -/
theorem trendVote_sell (row : Row) :
    trendVote row = Vote.sell ↔
      ¬(row.close > row.ma20 ∧ row.ma20 > row.ma50) ∧
      (row.close < row.ma20 ∧ row.ma20 < row.ma50) := by
  unfold trendVote; split_ifs <;> simp_all

/-- The RSI vote is buy exactly under the code's condition. -/
theorem rsiVote_buy (row : Row) :
    rsiVote row = Vote.buy ↔ row.rsi < RSI_OVERSOLD := by
  unfold rsiVote; split_ifs <;> simp_all

/-- The RSI vote is sell exactly under the code's `elif` condition. -/
theorem rsiVote_sell (row : Row) :
    rsiVote row = Vote.sell ↔
      ¬(row.rsi < RSI_OVERSOLD) ∧ row.rsi > RSI_OVERBOUGHT := by
  unfold rsiVote; split_ifs <;> simp_all

/-- The MACD vote is buy exactly when MACD is strictly above its signal. -/
theorem macdVote_buy (row : Row) :
    macdVote row = Vote.buy ↔ row.macd > row.macdSignal := by
  unfold macdVote; split_ifs <;> simp_all

/-- The MACD vote is sell exactly when MACD is strictly below its signal. -/
theorem macdVote_sell (row : Row) :
    macdVote row = Vote.sell ↔
      ¬(row.macd > row.macdSignal) ∧ row.macd < row.macdSignal := by
  unfold macdVote; split_ifs <;> simp_all

/-- The Bollinger vote is buy exactly under the code's condition. -/
theorem bollingerVote_buy (row : Row) :
    bollingerVote row = Vote.buy ↔ row.close < row.lowerBand := by
  unfold bollingerVote; split_ifs <;> simp_all

/-- The Bollinger vote is sell exactly under the code's `elif` condition. -/
theorem bollingerVote_sell (row : Row) :
    bollingerVote row = Vote.sell ↔
      ¬(row.close < row.lowerBand) ∧ row.close > row.upperBand := by
  unfold bollingerVote; split_ifs <;> simp_all

/-- Modelled from the claim's words, not the code: the claim has the MACD
component vote SELL in every case where MACD is not strictly above the
signal line, including equality. The other components follow the code. -/
def claimSellVotes (row : Row) : ℕ :=
  (if ¬(row.close > row.ma20 ∧ row.ma20 > row.ma50) ∧
      (row.close < row.ma20 ∧ row.ma20 < row.ma50) then 1 else 0) +
  (if ¬(row.rsi < RSI_OVERSOLD) ∧ row.rsi > RSI_OVERBOUGHT then 1 else 0) +
  (if ¬(row.macd > row.macdSignal) then 1 else 0) +
  (if ¬(row.close < row.lowerBand) ∧ row.close > row.upperBand then 1 else 0)

/-- Row with a position open, two genuine sell votes (trend, RSI) and MACD
exactly equal to its signal line. -/
def rowMacdTie : Row := ⟨9, 9, 9, 9, 100, 10, 11, 80, 0, 0, 100, 50, 0, 1⟩

/-- C5 counterexample: under the claim's vote rule (MACD = signal votes
SELL) this row has three sell votes with a position open, so the claim
demands decision SELL; the code emits no signal because MACD equality votes
neither way. -/
theorem generate_signal_macd_tie_counterexample :
    claimSellVotes rowMacdTie ≥ 3 ∧ generate_signal rowMacdTie true = none := by
  constructor <;>
    norm_num [claimSellVotes, generate_signal, buy_signals, sell_signals,
      rowMacdTie, RSI_OVERSOLD, RSI_OVERBOUGHT]

/-- C5 amended: `generate_signal` returns BUY iff at least three of the four
components vote buy and no position is open, SELL iff at least three vote
sell and a position is open, and no signal otherwise — where the MACD
component votes buy when MACD > signal, sell when MACD < signal, and
abstains when they are equal. -/
theorem generate_signal_votes (row : Row) (position : Bool) :
    (generate_signal row position = some Signal.BUY ↔
      3 ≤ amendedBuyCount row ∧ position = false) ∧
    (generate_signal row position = some Signal.SELL ↔
      3 ≤ amendedSellCount row ∧ position = true) ∧
    (generate_signal row position = none ↔
      ¬(3 ≤ amendedBuyCount row ∧ position = false) ∧
      ¬(3 ≤ amendedSellCount row ∧ position = true)) := by
  have hb : amendedBuyCount row = buy_signals row := by
    simp only [amendedBuyCount, buy_signals, trendVote_buy, rsiVote_buy,
      macdVote_buy, bollingerVote_buy]
  have hs : amendedSellCount row = sell_signals row := by
    simp only [amendedSellCount, sell_signals, trendVote_sell, rsiVote_sell,
      macdVote_sell, bollingerVote_sell]
  rw [hb, hs]
  unfold generate_signal
  cases position <;> split_ifs <;> simp_all

/-- One OHLCV bar of the downloaded price series, before indicators. -/
structure Bar where
  open_ : ℚ
  high : ℚ
  low : ℚ
  close : ℚ
  volume : ℚ
deriving DecidableEq, Repr

/-- Close column of a price series. -/
def closes (bars : List Bar) : List ℚ :=
  bars.map Bar.close

/-- Worker for `rollingMean`: `seen` is the reversed list of values already
consumed, so `(x :: seen).take w` is the current window (most recent first;
summation is order-independent). -/
def rollingMeanGo (w : ℕ) (seen : List ℚ) : List ℚ → List (Option ℚ)
  | [] => []
  | x :: rest =>
    (if w ≤ (x :: seen).length then some (((x :: seen).take w).sum / w) else none)
      :: rollingMeanGo w (x :: seen) rest

/-- `Series.rolling(window=w).mean()` with the pandas default
`min_periods = w`: the mean of the last `w` values once `w` values are
available, NaN (`none`) before that. -/
def rollingMean (w : ℕ) (xs : List ℚ) : List (Option ℚ) :=
  rollingMeanGo w [] xs

/-- Worker for `rollingMeanOpt` (rolling mean over a series that may itself
contain NaN cells, as the pandas rolling mean: any NaN inside the window
leaves fewer than `min_periods = w` valid values, so the result is NaN). -/
def rollingMeanOptGo (w : ℕ) (seen : List (Option ℚ)) :
    List (Option ℚ) → List (Option ℚ)
  | [] => []
  | x :: rest =>
    (if w ≤ (x :: seen).length ∧ ((x :: seen).take w).all Option.isSome then
      some ((((x :: seen).take w).filterMap id).sum / w)
    else none) :: rollingMeanOptGo w (x :: seen) rest

/-- Rolling mean of a series with possible NaN cells. -/
def rollingMeanOpt (w : ℕ) (xs : List (Option ℚ)) : List (Option ℚ) :=
  rollingMeanOptGo w [] xs

/-- Gain series of `calculate_rsi`: `delta = Close.diff()` is NaN at index 0,
and the source immediately applies `delta.where(delta > 0, 0)`, whose
condition is False at NaN, so the first cell becomes 0 (not NaN) in both the
gain and the loss series. -/
def gainSeries (cs : List ℚ) : List ℚ :=
  match cs with
  | [] => []
  | _ :: _ =>
    0 :: List.zipWith (fun b a => if b - a > 0 then b - a else 0) cs.tail cs

/-- Loss series of `calculate_rsi`: `(-delta.where(delta < 0, 0))`, with the
same NaN-to-0 first cell as the gain series. -/
def lossSeries (cs : List ℚ) : List ℚ :=
  match cs with
  | [] => []
  | _ :: _ =>
    0 :: List.zipWith (fun b a => if b - a < 0 then -(b - a) else 0) cs.tail cs

/-- IEEE-754 evaluation of `100 - (100 / (1 + gain/loss))` on a gain average
`g ≥ 0` and loss average `l ≥ 0` (nonnegativity is proved below from the
series construction; rationals carry no infinities, so the two
division-by-zero outcomes are spelled out): `l > 0` gives the ordinary
value; `l = 0 < g` gives `g/l = +inf` hence RSI `100 − 100/inf = 100`;
`l = g = 0` gives `0/0 = NaN`, which propagates. -/
def rsiValue (g l : ℚ) : Option ℚ :=
  if l = 0 then (if g = 0 then none else some 100)
  else some (100 - 100 / (1 + g / l))

/-- Embedding of `calculate_rsi` (identical in both source files): the
rolling 14-mean of the gain and loss series combined by
`100 - 100/(1 + gain/loss)`. -/
def calculate_rsi (cs : List ℚ) : List (Option ℚ) :=
  List.zipWith
    (fun go lo =>
      match go, lo with
      | some g, some l => rsiValue g l
      | _, _ => none)
    (rollingMean 14 (gainSeries cs)) (rollingMean 14 (lossSeries cs))

/-- Worker for `ema`: `prev` is the previous smoothed value. -/
def emaGo (a : ℚ) (prev : ℚ) : List ℚ → List ℚ
  | [] => []
  | x :: rest => (a * x + (1 - a) * prev) :: emaGo a (a * x + (1 - a) * prev) rest

/-- `Series.ewm(span=span, adjust=False).mean()`: exponential smoothing with
`α = 2/(span+1)`, seeded by the first value. -/
def ema (span : ℕ) (xs : List ℚ) : List ℚ :=
  match xs with
  | [] => []
  | x :: rest => x :: emaGo (2 / ((span : ℚ) + 1)) x rest

/-- Embedding of `calculate_macd`: MACD line `EMA(12) − EMA(26)` and its
signal line `EMA(MACD, 9)`; defined at every index. -/
def calculate_macd (cs : List ℚ) : List ℚ × List ℚ :=
  (List.zipWith (fun a b => a - b) (ema 12 cs) (ema 26 cs),
   ema 9 (List.zipWith (fun a b => a - b) (ema 12 cs) (ema 26 cs)))

/-- Rolling sample variance (`ddof = 1`) of the last `w` values, as the
square of the source's `rolling(window).std()`. Only the square root is
missing: it is irrational in general, and every claim below depends only on
this column's definedness (NaN-ness) and the definedness of the bands built
from it, which the square root of a nonnegative value preserves. -/
def rollingVarGo (w : ℕ) (seen : List ℚ) : List ℚ → List (Option ℚ)
  | [] => []
  | x :: rest =>
    (if w ≤ (x :: seen).length then
      some ((((x :: seen).take w).map
          (fun v => (v - ((x :: seen).take w).sum / w) ^ 2)).sum / (w - 1))
    else none) :: rollingVarGo w (x :: seen) rest

/-- Rolling sample variance column. -/
def rollingVar (w : ℕ) (xs : List ℚ) : List (Option ℚ) :=
  rollingVarGo w [] xs

/-- Column `High − Low` of `calculate_atr`: defined on every bar. -/
def high_low (bars : List Bar) : List ℚ :=
  bars.map (fun b => b.high - b.low)

/-- Column `abs(High − Close.shift())` of `calculate_atr`: NaN on the first
bar (no previous close). -/
def high_close (bars : List Bar) : List (Option ℚ) :=
  match bars with
  | [] => []
  | _ :: _ =>
    none :: List.zipWith (fun prev cur => some |cur.high - prev.close|) bars bars.tail

/-- Column `abs(Low − Close.shift())` of `calculate_atr`: NaN on the first
bar. -/
def low_close (bars : List Bar) : List (Option ℚ) :=
  match bars with
  | [] => []
  | _ :: _ =>
    none :: List.zipWith (fun prev cur => some |cur.low - prev.close|) bars bars.tail

/-- Row-wise `DataFrame.max(axis=1)` over the three true-range columns with
the pandas default `skipna=True`: NaN cells are ignored, and the `High−Low`
cell is always present, so the row maximum is always defined. -/
def maxSkipNaN (a : ℚ) : Option ℚ → Option ℚ → ℚ
  | none, none => a
  | some b, none => max a b
  | none, some c => max a c
  | some b, some c => max a (max b c)

/-- The true-range series `tr` of `calculate_atr`, combining the three
columns by the skipna row maximum. -/
def tr (bars : List Bar) : List ℚ :=
  List.zipWith3 maxSkipNaN (high_low bars) (high_close bars) (low_close bars)

/-- Embedding of `calculate_atr`: the rolling 14-mean of the true range. -/
def calculate_atr (bars : List Bar) : List (Option ℚ) :=
  rollingMean 14 (tr bars)

/-- True range written as the amended C7 claim describes it: `High − Low` on
the first bar (the NaN comparisons against the missing previous close are
skipped by the row maximum), and the three-way maximum afterwards. -/
def trueRangeList (bars : List Bar) : List ℚ :=
  match bars with
  | [] => []
  | b :: _ =>
    (b.high - b.low) ::
      List.zipWith
        (fun prev cur =>
          max (cur.high - cur.low) (max |cur.high - prev.close| |cur.low - prev.close|))
        bars bars.tail

/-- Modelled from the original C7 claim's words, not the code: a true range
that is undefined on the first bar. -/
def claimTrueRange (bars : List Bar) : List (Option ℚ) :=
  match bars with
  | [] => []
  | _ :: _ =>
    none ::
      List.zipWith
        (fun prev cur =>
          some (max (cur.high - cur.low)
            (max |cur.high - prev.close| |cur.low - prev.close|)))
        bars bars.tail

/-- Modelled from the original C7 claim's words: the 14-bar SMA over the
claim's true range, undefined wherever the window reaches the first bar. -/
def claimATR (bars : List Bar) : List (Option ℚ) :=
  rollingMeanOpt 14 (claimTrueRange bars)

/-- NaN-aware lookup of a column cell: `none` both past the end and at NaN. -/
def colAt (col : List (Option ℚ)) (i : ℕ) : Option ℚ :=
  col[i]?.join

/-- The indicator row at index `i` of `calculate_indicators`, or `none` when
any indicator cell is NaN — such rows are removed by the final `dropna()`.
Columns follow the source order: MA20, MA50, RSI, MACD and signal, Bollinger
bands, ATR. The Bollinger middle band is the same 20-bar SMA as MA20; the
upper/lower bands add/subtract `2·std`, whose square root is irrational, so
the stand-in value `±2·(sample variance)` is stored — only the definedness
of these two cells (which the nonnegative square root preserves exactly) is
used by any theorem below, never their numeric value. -/
def rowAt (bars : List Bar) (i : ℕ) : Option Row := do
  let b ← bars.get? i
  let m20 ← colAt (rollingMean 20 (closes bars)) i
  let m50 ← colAt (rollingMean 50 (closes bars)) i
  let r ← colAt (calculate_rsi (closes bars)) i
  let mc ← (calculate_macd (closes bars)).1.get? i
  let sg ← (calculate_macd (closes bars)).2.get? i
  let sd ← colAt (rollingVar 20 (closes bars)) i
  let at_ ← colAt (calculate_atr bars) i
  pure ⟨b.open_, b.high, b.low, b.close, b.volume, m20, m50, r, mc, sg,
        m20 + 2 * sd, m20, m20 - 2 * sd, at_⟩

/-- Embedding of `calculate_indicators(df).dropna()`: the rows whose every
indicator cell is defined, in order. -/
def calculate_indicators (bars : List Bar) : List Row :=
  (List.range bars.length).filterMap (rowAt bars)

/-- Per-instrument pipeline outcome (intraday_backtest.py lines 139-165):
empty download → "No data" skip; empty indicator frame → "Insufficient
data" skip; otherwise the backtest runs over the indicator rows. -/
inductive Outcome where
  | noData
  | insufficientData
  | completed (result : SimState)
deriving DecidableEq, Repr

/-- One instrument's pipeline on an already-downloaded series. -/
def processInstrument (bars : List Bar) : Outcome :=
  if bars.isEmpty then Outcome.noData
  else if (calculate_indicators bars).isEmpty then Outcome.insufficientData
  else Outcome.completed (backtest (calculate_indicators bars))

/-- Cells of a rolling mean are NaN while fewer than `w` values arrived. -/
theorem rollingMeanGo_getElem_none (w : ℕ) :
    ∀ (xs seen : List ℚ) (i : ℕ), i < xs.length → i + 1 + seen.length < w →
    (rollingMeanGo w seen xs)[i]? = some none := by
  intro xs
  induction xs with
  | nil => intro seen i hi _; simp at hi
  | cons x rest ih =>
    intro seen i hi hw
    cases i with
    | zero =>
      have hcond : ¬ w ≤ (x :: seen).length := by simp; omega
      simp [rollingMeanGo, hcond]
      omega
    | succ j =>
      have hj : j < rest.length := by simpa using hi
      simpa [rollingMeanGo] using ih (x :: seen) j hj (by simp; omega)

/-- The MA50 cell (or any window-`w` cell) at index `i < w − 1` is NaN. -/
theorem rollingMean_getElem_none (w : ℕ) (xs : List ℚ) (i : ℕ)
    (hi : i < xs.length) (hw : i + 1 < w) :
    (rollingMean w xs)[i]? = some none := by
  simpa [rollingMean] using rollingMeanGo_getElem_none w xs [] i hi (by simpa using hw)

/-- With fewer than 50 bars the MA50 cell is NaN on every row, so `dropna()`
discards the row. -/
theorem rowAt_none_of_short (bars : List Bar) (hlen : bars.length < 50)
    (i : ℕ) (hi : i < bars.length) : rowAt bars i = none := by
  have h50 : colAt (rollingMean 50 (closes bars)) i = none := by
    have h := rollingMean_getElem_none 50 (closes bars) i
      (by simpa [closes] using hi) (by omega)
    simp [colAt, h]
  unfold rowAt
  cases hb : bars.get? i
  · simp
  · cases h20 : colAt (rollingMean 20 (closes bars)) i <;> simp [h50]

/-- C8: a non-empty series shorter than the largest indicator window (MA50,
50 bars) yields an empty indicator row set, and the instrument's cycle ends
in the insufficient-data skip (the empty download is intercepted earlier as
the distinct no-data skip). -/
theorem short_series_insufficient (bars : List Bar) (hne : bars ≠ [])
    (hlen : bars.length < 50) :
    calculate_indicators bars = [] ∧
    processInstrument bars = Outcome.insufficientData := by
  have hempty : calculate_indicators bars = [] := by
    unfold calculate_indicators
    rw [List.filterMap_eq_nil_iff]
    intro i hi
    exact rowAt_none_of_short bars hlen i (List.mem_range.mp hi)
  refine ⟨hempty, ?_⟩
  unfold processInstrument
  simp [hempty, hne]

/-- Two flat demo bars, far fewer than the 50 the indicators need. -/
def shortBars : List Bar := [⟨1, 1, 1, 1, 1⟩, ⟨1, 1, 1, 1, 1⟩]

/-- Witness for C8 on the concrete two-bar series. -/
theorem short_series_insufficient_witness :
    shortBars ≠ [] ∧ shortBars.length < 50 ∧
    processInstrument shortBars = Outcome.insufficientData :=
  ⟨by simp [shortBars], by simp [shortBars],
    (short_series_insufficient shortBars (by simp [shortBars])
      (by simp [shortBars])).2⟩

/-- Every element of a zipWith image comes from one element of each list. -/
theorem mem_zipWith_exists {α β γ : Type} {f : α → β → γ} {as : List α}
    {bs : List β} {c : γ} (h : c ∈ List.zipWith f as bs) :
    ∃ a, a ∈ as ∧ ∃ b, b ∈ bs ∧ c = f a b := by
  induction as generalizing bs with
  | nil => simp at h
  | cons a as ih =>
    cases bs with
    | nil => simp at h
    | cons b bs =>
      simp only [List.zipWith_cons_cons, List.mem_cons] at h
      rcases h with h | h
      · exact ⟨a, by simp, b, by simp, h⟩
      · rcases ih h with ⟨a2, ha, b2, hb, hc⟩
        exact ⟨a2, by simp [ha], b2, by simp [hb], hc⟩

/-- Gains are nonnegative: each is a positive delta or the substituted 0. -/
theorem gainSeries_nonneg (cs : List ℚ) : ∀ x ∈ gainSeries cs, 0 ≤ x := by
  unfold gainSeries
  cases cs with
  | nil => simp
  | cons c rest =>
    intro x hx
    rcases List.mem_cons.mp hx with h | h
    · simp [h]
    · rcases mem_zipWith_exists h with ⟨a, _, b, _, hc⟩
      subst hc
      split_ifs with hd
      · linarith
      · exact le_refl 0

/-- Losses are nonnegative: each is a negated negative delta or 0. -/
theorem lossSeries_nonneg (cs : List ℚ) : ∀ x ∈ lossSeries cs, 0 ≤ x := by
  unfold lossSeries
  cases cs with
  | nil => simp
  | cons c rest =>
    intro x hx
    rcases List.mem_cons.mp hx with h | h
    · simp [h]
    · rcases mem_zipWith_exists h with ⟨a, _, b, _, hc⟩
      subst hc
      split_ifs with hd
      · linarith
      · exact le_refl 0

/-- A rolling mean over nonnegative values is nonnegative wherever defined. -/
theorem rollingMeanGo_nonneg (w : ℕ) :
    ∀ (xs seen : List ℚ), (∀ x ∈ seen, 0 ≤ x) → (∀ x ∈ xs, 0 ≤ x) →
    ∀ q : ℚ, some q ∈ rollingMeanGo w seen xs → 0 ≤ q := by
  intro xs
  induction xs with
  | nil => intro seen _ _ q hq; simp [rollingMeanGo] at hq
  | cons x rest ih =>
    intro seen hseen hxs q hq
    have hxseen : ∀ y ∈ x :: seen, 0 ≤ y := by
      intro y hy
      rcases List.mem_cons.mp hy with h | h
      · exact h ▸ hxs x (by simp)
      · exact hseen y h
    simp only [rollingMeanGo, List.mem_cons] at hq
    rcases hq with h | h
    · split_ifs at h with hw
      · have hq2 : q = ((x :: seen).take w).sum / w := by
          simpa using h
        have hsum : 0 ≤ ((x :: seen).take w).sum :=
          List.sum_nonneg fun y hy => hxseen y (List.take_subset w _ hy)
        rw [hq2]
        exact div_nonneg hsum (by positivity)
    · exact ih (x :: seen) hxseen (fun y hy => hxs y (by simp [hy])) q h

/-- The RSI formula sends nonnegative averages into `[0, 100]`. -/
theorem rsiValue_bounds (g l : ℚ) (hg : 0 ≤ g) (hl : 0 ≤ l) (v : ℚ)
    (hv : rsiValue g l = some v) : 0 ≤ v ∧ v ≤ 100 := by
  by_cases h0 : l = 0
  · by_cases hgz : g = 0
    · simp [rsiValue, h0, hgz] at hv
    · simp [rsiValue, h0, hgz] at hv
      constructor <;> linarith [hv]
  · have hlpos : 0 < l := lt_of_le_of_ne hl (Ne.symm h0)
    have hrs : 0 ≤ g / l := div_nonneg hg hl
    have h1 : (0 : ℚ) < 1 + g / l := by linarith
    have h2 : 100 / (1 + g / l) ≤ 100 := div_le_self (by norm_num) (by linarith)
    have h3 : 0 < 100 / (1 + g / l) := by positivity
    simp [rsiValue, h0] at hv
    constructor <;> linarith [hv]

/-- C6 amended: every RSI value the indicator pipeline produces lies in
`[0, 100]`; a window with loss-average 0 and positive gain-average yields
RSI exactly 100; a window with both averages 0 (a flat window) yields NaN
(the 0/0 artifact), and the row is later dropped, not clamped to 100. -/
theorem rsi_range_and_zero_loss :
    (∀ (cs : List ℚ) (v : ℚ), some v ∈ calculate_rsi cs → 0 ≤ v ∧ v ≤ 100) ∧
    (∀ (cs : List ℚ) (i : ℕ) (g : ℚ),
      (rollingMean 14 (lossSeries cs))[i]? = some (some 0) →
      (rollingMean 14 (gainSeries cs))[i]? = some (some g) →
      (0 < g → (calculate_rsi cs)[i]? = some (some 100)) ∧
      (g = 0 → (calculate_rsi cs)[i]? = some none)) := by
  constructor
  · intro cs v hv
    unfold calculate_rsi at hv
    rcases mem_zipWith_exists hv with ⟨go, hgo, lo, hlo, hc⟩
    match go, lo, hc with
    | some g, some l, hc =>
      have hg : 0 ≤ g :=
        rollingMeanGo_nonneg 14 (gainSeries cs) [] (by simp)
          (gainSeries_nonneg cs) g hgo
      have hl : 0 ≤ l :=
        rollingMeanGo_nonneg 14 (lossSeries cs) [] (by simp)
          (lossSeries_nonneg cs) l hlo
      exact rsiValue_bounds g l hg hl v hc.symm
  · intro cs i g hl hg
    have hz : (calculate_rsi cs)[i]? = some (rsiValue g 0) := by
      unfold calculate_rsi
      rw [List.getElem?_zipWith', hg, hl]
      rfl
    constructor
    · intro hgpos
      rw [hz]
      unfold rsiValue
      simp [ne_of_gt hgpos]
    · intro hg0
      rw [hz]
      unfold rsiValue
      simp [hg0]

/-- Fifteen identical closes: every delta is 0, so over the first full
window both the gain average and the loss average are exactly 0. -/
def flatCloses : List ℚ := [5, 5, 5, 5, 5, 5, 5, 5, 5, 5, 5, 5, 5, 5, 5]

/-- C6 counterexample: on the flat series the first full window has loss
average exactly 0, yet the computed RSI cell is NaN (the pandas `0/0`), not
the claimed 100 — the claim fails whenever the gain average is also 0. -/
theorem rsi_zero_loss_counterexample :
    (rollingMean 14 (lossSeries flatCloses))[13]? = some (some 0) ∧
    (calculate_rsi flatCloses)[13]? = some none := by
  constructor <;>
    norm_num [flatCloses, calculate_rsi, rollingMean, rollingMeanGo,
      gainSeries, lossSeries, rsiValue]

/-- Fourteen flat closes and one rising close: the first full window at
index 14 has loss average 0 and gain average `1/14 > 0`. -/
def upCloses : List ℚ := [5, 5, 5, 5, 5, 5, 5, 5, 5, 5, 5, 5, 5, 5, 6]

/-- Witness for C6: on the concrete rising series the zero-loss window with
positive gain average produces RSI exactly 100. -/
theorem rsi_range_and_zero_loss_witness :
    (calculate_rsi upCloses)[14]? = some (some 100) := by
  have hl : (rollingMean 14 (lossSeries upCloses))[14]? = some (some 0) := by
    norm_num [upCloses, rollingMean, rollingMeanGo, lossSeries]
  have hg : (rollingMean 14 (gainSeries upCloses))[14]? = some (some (1 / 14)) := by
    norm_num [upCloses, rollingMean, rollingMeanGo, gainSeries]
  exact (rsi_range_and_zero_loss.2 upCloses 14 (1 / 14) hl hg).1 (by norm_num)

/-- Combining the per-bar cells of the three true-range columns past the
first bar gives the three-way maximum. -/
theorem tr_tail_eq (prevs rest : List Bar) :
    List.zipWith3 maxSkipNaN (rest.map (fun b => b.high - b.low))
      (List.zipWith (fun prev cur => some |cur.high - prev.close|) prevs rest)
      (List.zipWith (fun prev cur => some |cur.low - prev.close|) prevs rest)
    = List.zipWith
        (fun prev cur =>
          max (cur.high - cur.low) (max |cur.high - prev.close| |cur.low - prev.close|))
        prevs rest := by
  induction prevs generalizing rest with
  | nil => simp [List.zipWith3]
  | cons p ps ih =>
    cases rest with
    | nil => simp [List.zipWith3]
    | cons c cs => simp [List.zipWith3, maxSkipNaN, ih]

/-- The source's skipna true range coincides with the amended description:
`High − Low` on the first bar, the three-way maximum afterwards. -/
theorem tr_eq_trueRangeList (bars : List Bar) : tr bars = trueRangeList bars := by
  cases bars with
  | nil => rfl
  | cons b rest =>
    simp only [tr, trueRangeList, high_low, high_close, low_close, List.map_cons,
      List.tail_cons, List.zipWith3, maxSkipNaN]
    exact congrArg (List.cons (b.high - b.low)) (tr_tail_eq (b :: rest) rest)

/-- C7 amended: ATR is the rolling 14-mean of the true range, whose first
cell is `High − Low` (the NaN comparisons with the missing previous close
are skipped by `max(axis=1)`) and whose every later cell at index `i+1` is
`max(H−L, |H−prevC|, |L−prevC|)`; the first bar is NOT excluded. -/
theorem atr_true_range_amended :
    (∀ bars : List Bar, calculate_atr bars = rollingMean 14 (trueRangeList bars)) ∧
    (∀ (b : Bar) (rest : List Bar), (tr (b :: rest)).head? = some (b.high - b.low)) ∧
    (∀ (bars : List Bar) (i : ℕ) (prev cur : Bar),
      bars[i]? = some prev → bars[i + 1]? = some cur →
      (tr bars)[i + 1]? =
        some (max (cur.high - cur.low)
          (max |cur.high - prev.close| |cur.low - prev.close|))) := by
  refine ⟨fun bars => by rw [calculate_atr, tr_eq_trueRangeList], ?_, ?_⟩
  · intro b rest
    rw [tr_eq_trueRangeList]
    rfl
  · intro bars i prev cur hp hc
    cases bars with
    | nil => simp at hp
    | cons b rest =>
      rw [tr_eq_trueRangeList]
      have hc2 : rest[i]? = some cur := by simpa using hc
      simp only [trueRangeList, List.tail_cons, List.getElem?_cons_succ]
      rw [List.getElem?_zipWith', hp, hc2]
      rfl

/-- A first bar with an exaggerated range (high 30, low 2) followed by
thirteen flat bars whose true ranges are all 0. -/
def barsATR : List Bar :=
  [⟨2, 30, 2, 2, 1⟩, ⟨2, 2, 2, 2, 1⟩, ⟨2, 2, 2, 2, 1⟩, ⟨2, 2, 2, 2, 1⟩,
   ⟨2, 2, 2, 2, 1⟩, ⟨2, 2, 2, 2, 1⟩, ⟨2, 2, 2, 2, 1⟩, ⟨2, 2, 2, 2, 1⟩,
   ⟨2, 2, 2, 2, 1⟩, ⟨2, 2, 2, 2, 1⟩, ⟨2, 2, 2, 2, 1⟩, ⟨2, 2, 2, 2, 1⟩,
   ⟨2, 2, 2, 2, 1⟩, ⟨2, 2, 2, 2, 1⟩]

/-- C7 counterexample: on the fourteen concrete bars the code's ATR is
already defined at index 13 and equals `(28 + 13·0)/14 = 2`, because the
first bar's true range is its `High − Low = 28`; under the claim (first bar
has no true range) the same cell would still be NaN. -/
theorem atr_first_bar_counterexample :
    (calculate_atr barsATR)[13]? = some (some 2) ∧
    (claimATR barsATR)[13]? = some none := by
  constructor <;>
    norm_num [barsATR, calculate_atr, claimATR, rollingMean, rollingMeanGo,
      rollingMeanOpt, rollingMeanOptGo, tr, claimTrueRange, high_low,
      high_close, low_close, maxSkipNaN, List.zipWith3]

/-- Witness for C7: the second true-range cell of a concrete two-bar series
is the three-way maximum `max(3, |3|, |0|) = 3`. -/
theorem atr_true_range_amended_witness :
    (tr [⟨1, 3, 1, 2, 1⟩, ⟨2, 5, 2, 4, 1⟩]).head? = some ((3 : ℚ) - 1) ∧
    (tr [⟨1, 3, 1, 2, 1⟩, ⟨2, 5, 2, 4, 1⟩])[1]? = some 3 := by
  constructor
  · exact atr_true_range_amended.2.1 ⟨1, 3, 1, 2, 1⟩ [⟨2, 5, 2, 4, 1⟩]
  · have h := atr_true_range_amended.2.2 [⟨1, 3, 1, 2, 1⟩, ⟨2, 5, 2, 4, 1⟩] 0
      ⟨1, 3, 1, 2, 1⟩ ⟨2, 5, 2, 4, 1⟩ rfl rfl
    norm_num at h
    exact h

/-- What one symbol contributes to a run of the intraday loop: either the
body's normal outcome or a caught-and-reported exception. -/
inductive InstrReport (σ ε ρ : Type) where
  | done (sym : σ) (out : ρ)
  | failed (sym : σ) (err : ε)
deriving DecidableEq, Repr

/-- Control flow of the intraday backtest loop (intraday_backtest.py lines
136-297): each symbol's whole body sits inside `try`, its `except` catches
every exception, reports it, and falls through to the next symbol. The
effectful body (download, indicators, backtest, notifications, plotting) is
abstracted as `body`, whose `Except.error` models a raised exception. -/
def intradayLoop {σ ε ρ : Type} (body : σ → Except ε ρ) :
    List σ → List (InstrReport σ ε ρ)
  | [] => []
  | s :: rest =>
    (match body s with
     | Except.ok o => InstrReport.done s o
     | Except.error e => InstrReport.failed s e) :: intradayLoop body rest

/-- Control flow of `run_bot` (ml_trading_bot.py lines 71-86): per symbol it
downloads and computes indicators with NO surrounding try/except — only the
model load is guarded (`except: model = train_model(...)`). `fetch` models
the unguarded download-and-process steps, `loadModel` the guarded load,
`train` the fallback, `act` the rest of the body. An exception from `fetch`
propagates out of the whole loop. -/
def run_bot {σ ε δ μ ρ : Type} (fetch : σ → Except ε δ) (loadModel : Except ε μ)
    (train : δ → μ) (act : σ → δ → μ → ρ) : List σ → Except ε (List ρ)
  | [] => Except.ok []
  | s :: rest => do
    let data ← fetch s
    let model := match loadModel with
      | Except.ok m => m
      | Except.error _ => train data
    let outs ← run_bot fetch loadModel train act rest
    pure (act s data model :: outs)

/-- Fetch stub that raises on symbol 0 and succeeds elsewhere. -/
def fetchFail : ℕ → Except String Unit :=
  fun s => if s = 0 then Except.error "download error" else Except.ok ()

/-- C9 counterexample: in `run_bot` a download failure on the first of two
instruments aborts the whole run — the result is the propagated exception,
and the second instrument is never processed, against the claim that every
remaining instrument is still handled. -/
theorem run_bot_abort_counterexample :
    run_bot fetchFail (Except.ok ()) (fun _ => ()) (fun _ _ _ => ()) [0, 1] =
      Except.error "download error" := by
  rfl

/-- C9 amended: the intraday loop catches every per-instrument error and
continues (each symbol yields exactly one report, failure or success, in
order); `run_bot` only guards the model load (a load failure merely falls
back to training and the run still succeeds), while any unguarded
per-instrument error (e.g. the download) propagates and aborts the whole
remaining run. -/
theorem error_isolation_amended :
    (∀ {σ ε ρ : Type} (body : σ → Except ε ρ) (syms : List σ),
      (intradayLoop body syms).length = syms.length ∧
      (∀ (k : ℕ) (s : σ), syms[k]? = some s →
        (intradayLoop body syms)[k]? = some (match body s with
          | Except.ok o => InstrReport.done s o
          | Except.error e => InstrReport.failed s e))) ∧
    (∀ {σ ε δ μ ρ : Type} (fetch : σ → Except ε δ) (lm : Except ε μ)
        (train : δ → μ) (act : σ → δ → μ → ρ) (s : σ) (rest : List σ) (e : ε),
      fetch s = Except.error e →
      run_bot fetch lm train act (s :: rest) = Except.error e) ∧
    (∀ {σ ε δ μ ρ : Type} (fetch : σ → Except ε δ) (e : ε)
        (train : δ → μ) (act : σ → δ → μ → ρ) (syms : List σ),
      (∀ s ∈ syms, ∃ d, fetch s = Except.ok d) →
      ∃ outs, run_bot fetch (Except.error e) train act syms = Except.ok outs) := by
  refine ⟨?_, ?_, ?_⟩
  · intro σ ε ρ body syms
    induction syms with
    | nil => simp [intradayLoop]
    | cons s rest ih =>
      refine ⟨by simpa [intradayLoop] using ih.1, ?_⟩
      intro k s2 hk
      cases k with
      | zero =>
        have hs : s = s2 := by simpa using hk
        subst hs
        simp [intradayLoop]
      | succ j =>
        have hj : rest[j]? = some s2 := by simpa using hk
        simpa [intradayLoop] using ih.2 j s2 hj
  · intro σ ε δ μ ρ fetch lm train act s rest e he
    simp only [run_bot, he]
    rfl
  · intro σ ε δ μ ρ fetch e train act syms hok
    induction syms with
    | nil => exact ⟨[], rfl⟩
    | cons s rest ih =>
      obtain ⟨d, hd⟩ := hok s (by simp)
      obtain ⟨outs, houts⟩ := ih (fun s2 hs2 => hok s2 (by simp [hs2]))
      refine ⟨act s d (train d) :: outs, ?_⟩
      simp only [run_bot, hd, houts]
      rfl

/-- Witness for C9 amended: concretely, one crashed instrument out of two
still yields two intraday reports, the second being a success. -/
theorem error_isolation_amended_witness :
    (intradayLoop (fun s => (fetchFail s).map fun _ => s) [0, 1])[1]? =
      some (InstrReport.done 1 1) ∧
    ([(0 : ℕ), 1])[1]? = some 1 := by
  refine ⟨?_, rfl⟩
  have h := (error_isolation_amended.1
    (fun s => (fetchFail s).map fun _ => s) [0, 1]).2 1 1 rfl
  simpa [fetchFail] using h

end StockAlerts
